import Mathlib

/-!
Shallow embedding of the retrying fetcher (`level2.py`, `IndonesianDataCollector`)
and of the real-time collector (`level3.py`, `RealTimeIndonesianDataCollector`),
together with theorems settling the specification claims about them.
-/

namespace Level2

/-!
`safe_api_call(self, url, max_retries=3, backoff=1)`:

    delay = backoff
    for attempt in range(max_retries):
        try:
            response = requests.get(url, timeout=10)
            response.raise_for_status()
            return response
        except Exception:
            if attempt == max_retries - 1:
                break
            time.sleep(delay)
            delay *= 2
    return None

The external collaborator (one `requests.get` + `raise_for_status`) is modelled as a
function from the 0-based attempt index to either a successful response value or the
raised exception's message.  The embedding returns, besides the function's return
value (`none` models Python's `None`), the number of collaborator calls performed and
the list of `time.sleep` delays in the order they happen, so that claims about call
counts and backoff timing can be stated.
-/

/-- Loop of `safe_api_call`, recursing on the number of remaining loop iterations
(`remaining = max_retries - attempt`); `remaining = 1` means the current attempt is
the last one (`attempt == max_retries - 1`), in which case a failure breaks out of
the loop with no sleep. -/
def safeApiGo (fetch : Nat → Except String α) :
    Nat → Nat → Nat → Option α × Nat × List Nat
  | 0, _, _ => (none, 0, [])
  | remaining + 1, attempt, delay =>
    match fetch attempt with
    | Except.ok v => (some v, 1, [])
    | Except.error _ =>
      if remaining = 0 then
        (none, 1, [])
      else
        let rest := safeApiGo fetch remaining (attempt + 1) (delay * 2)
        (rest.1, rest.2.1 + 1, delay :: rest.2.2)

/-- `safe_api_call` with an explicit collaborator: result value, collaborator call
count, and sleep delays in order. -/
def safe_api_call (fetch : Nat → Except String α) (max_retries backoff : Nat) :
    Option α × Nat × List Nat :=
  safeApiGo fetch max_retries 0 backoff

/-- The doubling backoff schedule starting at `delay`, of length `n`:
`[delay, 2*delay, 4*delay, ...]`. -/
def backoffDelays (delay : Nat) : Nat → List Nat
  | 0 => []
  | n + 1 => delay :: backoffDelays (delay * 2) n

/-- A collaborator that raises on every call (used in concrete witnesses). -/
def alwaysFail : Nat → Except String Nat := fun _ => Except.error "boom"

/-- A collaborator that raises on its first call and succeeds on its second
(used in concrete witnesses). -/
def failThenOk : Nat → Except String Nat
  | 0 => Except.error "transient"
  | _ => Except.ok 7

end Level2

namespace Level3

/-!
Embedding of `level3.py` (`RealTimeIndonesianDataCollector`).  Timestamps
(`datetime.utcnow().isoformat()`) are modelled as naturals, Python floats as
rationals.  The two kinds of buffer entries mirror the dicts built by
`_fetch_weather` and `_fetch_news`: a success dict or an `{timestamp, error}` dict.
-/

/-- A weather buffer entry: either the success dict
`{timestamp, city, temperature_c, description, humidity}` or the error dict
`{timestamp, error}` built in the `except` branch of `_fetch_weather`. -/
inductive WeatherPoint where
  | ok (timestamp : Nat) (city : String) (temperature_c : Rat) (description : String)
      (humidity : Rat)
  | err (timestamp : Nat) (msg : String)
deriving DecidableEq

/-- A news buffer entry: either the success dict `{timestamp, title, link}` or the
error dict `{timestamp, error}` built in the `except` branch of `_fetch_news`. -/
inductive NewsPoint where
  | ok (timestamp : Nat) (title : String) (link : String)
  | err (timestamp : Nat) (msg : String)
deriving DecidableEq

/-- `collections.deque(maxlen=C).appendleft(x)`: the new element becomes the head;
when the deque already holds `C` elements, the rightmost (oldest) one is discarded
atomically with the insertion. -/
def appendleftBounded (maxlen : Nat) (x : α) (buf : List α) : List α :=
  (x :: buf).take maxlen

/-- Outcome of the body of `_fetch_weather`'s `try` block: either the parsed
current-condition fields, or the message of whatever exception was raised
(network failure, bad HTTP status, malformed JSON, failed float conversion). -/
inductive WeatherFetch where
  | ok (temp : Rat) (description : String) (humidity : Rat)
  | exc (msg : String)
deriving DecidableEq

/-- `_fetch_weather(city)`: a success dict on a successful parse, an
`{timestamp, error}` dict when any exception is raised.  It always returns a
(truthy, nonempty) dict. -/
def fetch_weather (now : Nat) (city : String) : WeatherFetch → WeatherPoint
  | WeatherFetch.ok t d h => WeatherPoint.ok now city t d h
  | WeatherFetch.exc m => WeatherPoint.err now m

/-- Outcome of `_fetch_news`'s `try` block: a first `channel/item` with its title
and link, a well-formed RSS feed with no item at all, or a raised exception. -/
inductive NewsFetch where
  | item (title link : String)
  | noItem
  | exc (msg : String)
deriving DecidableEq

/-- `_fetch_news()`: `None` when the feed parses but holds no item
(`if item is None: return None`), a success dict for the first item, an
`{timestamp, error}` dict when any exception is raised. -/
def fetch_news (now : Nat) : NewsFetch → Option NewsPoint
  | NewsFetch.item t l => some (NewsPoint.ok now t l)
  | NewsFetch.noItem => none
  | NewsFetch.exc m => some (NewsPoint.err now m)

/-- One iteration of `_weather_worker`'s loop body before the interruptible wait:
`data = self._fetch_weather()`; `if data: buffer.appendleft(data)`.  The fetched
dict is always nonempty, hence always appended. -/
def weather_worker_cycle (maxlen now : Nat) (city : String) (o : WeatherFetch)
    (buf : List WeatherPoint) : List WeatherPoint :=
  appendleftBounded maxlen (fetch_weather now city o) buf

/-- One iteration of `_news_worker`'s loop body before the interruptible wait:
`data = self._fetch_news()`; `if data: buffer.appendleft(data)`.  A `None` result
(RSS feed with no item) appends nothing. -/
def news_worker_cycle (maxlen now : Nat) (o : NewsFetch)
    (buf : List NewsPoint) : List NewsPoint :=
  match fetch_news now o with
  | some data => appendleftBounded maxlen data buf
  | none => buf

/-- State of a `RealTimeIndonesianDataCollector`: the two bounded buffers with
their `deque` capacities, the number of launched worker threads per source
(`self.threads` holds one weather and one news thread per
`start_data_collection()` call), and the `stop_event` flag. -/
structure CollectorState where
  weather_maxlen : Nat
  news_maxlen : Nat
  weather : List WeatherPoint
  news : List NewsPoint
  weather_threads : Nat
  news_threads : Nat
  stop_event : Bool
deriving DecidableEq

/-- `RealTimeIndonesianDataCollector()`: weather deque of maxlen 100, news deque
of maxlen 50, no threads, stop event clear. -/
def initCollector : CollectorState :=
  { weather_maxlen := 100, news_maxlen := 50, weather := [], news := [],
    weather_threads := 0, news_threads := 0, stop_event := false }

/-- `start_data_collection()`: creates a fresh weather thread and a fresh news
thread, starts both, and extends `self.threads` with them — on every call. -/
def start_data_collection (s : CollectorState) : CollectorState :=
  { s with weather_threads := s.weather_threads + 1, news_threads := s.news_threads + 1 }

/-- `stop()`: sets `self.stop_event`; the `t.join(timeout=0)` calls observe thread
state without modifying the collector. -/
def stop (s : CollectorState) : CollectorState :=
  { s with stop_event := true }

/-- The dict returned by `get_current_snapshot`: fresh lists copied out of the two
deques (`list(self.data_buffer[...])`). -/
structure Snapshot where
  weather : List WeatherPoint
  news : List NewsPoint
deriving DecidableEq

/-- `get_current_snapshot()`. -/
def get_current_snapshot (s : CollectorState) : Snapshot :=
  { weather := s.weather, news := s.news }

/-- `d.get("temperature_c")` guarded by `"temperature_c" in d`: only success
weather dicts carry the key. -/
def temperatureOf : WeatherPoint → Option Rat
  | WeatherPoint.ok _ _ t _ _ => some t
  | WeatherPoint.err _ _ => none

/-- The `metrics` dict of `export_dashboard_data`: the two update counters and,
when at least one snapshot entry carries `temperature_c`, their mean. -/
structure Metrics where
  weather_updates : Nat
  news_updates : Nat
  avg_temperature_c : Option Rat
deriving DecidableEq

/-- The `dashboard` dict: `{"data": snapshot, "metrics": metrics}`. -/
structure Dashboard where
  data : Snapshot
  metrics : Metrics
deriving DecidableEq

/-- `export_dashboard_data()` without the file write: builds the snapshot, the
update counters (the lengths of the snapshot lists), and the average temperature
over the snapshot entries that carry `temperature_c` (absent when none do). -/
def export_dashboard_data (s : CollectorState) : Dashboard :=
  let snapshot := get_current_snapshot s
  let temps := snapshot.weather.filterMap temperatureOf
  { data := snapshot,
    metrics :=
      { weather_updates := snapshot.weather.length,
        news_updates := snapshot.news.length,
        avg_temperature_c :=
          if temps = [] then none else some (temps.sum / (temps.length : Rat)) } }

/-- A JSON value, used to state claims about the shape of the document written by
`json.dump(dashboard, f)`. -/
inductive J where
  | str (s : String)
  | num (q : Rat)
  | arr (xs : List J)
  | obj (fields : List (String × J))

/-- The keys of a JSON object, in order; `[]` for non-objects. -/
def topKeys : J → List String
  | J.obj fields => fields.map Prod.fst
  | _ => []

/-- JSON form of a weather buffer entry, with the key set the source dicts have. -/
def weatherPointJson : WeatherPoint → J
  | WeatherPoint.ok ts city t d h =>
    J.obj [("timestamp", J.num ts), ("city", J.str city), ("temperature_c", J.num t),
           ("description", J.str d), ("humidity", J.num h)]
  | WeatherPoint.err ts m =>
    J.obj [("timestamp", J.num ts), ("error", J.str m)]

/-- JSON form of a news buffer entry, with the key set the source dicts have. -/
def newsPointJson : NewsPoint → J
  | NewsPoint.ok ts t l =>
    J.obj [("timestamp", J.num ts), ("title", J.str t), ("link", J.str l)]
  | NewsPoint.err ts m =>
    J.obj [("timestamp", J.num ts), ("error", J.str m)]

/-- JSON form of the snapshot dict: one key per source name, in insertion order. -/
def snapshotJson (s : Snapshot) : J :=
  J.obj [("weather", J.arr (s.weather.map weatherPointJson)),
         ("news", J.arr (s.news.map newsPointJson))]

/-- JSON form of the metrics dict; `avg_temperature_c` is present only when it was
computed. -/
def metricsJson (m : Metrics) : J :=
  J.obj ([("weather_updates", J.num m.weather_updates),
          ("news_updates", J.num m.news_updates)] ++
    (match m.avg_temperature_c with
     | some q => [("avg_temperature_c", J.num q)]
     | none => []))

/-- JSON form of the full exported document `{"data": …, "metrics": …}`. -/
def dashboardJson (d : Dashboard) : J :=
  J.obj [("data", snapshotJson d.data), ("metrics", metricsJson d.metrics)]

/-- A sequence of `appendleft` pushes into a bounded deque, oldest push first. -/
def pushAll (maxlen : Nat) (buf xs : List α) : List α :=
  xs.foldl (fun b x => appendleftBounded maxlen x b) buf

/-!
Reference-level model for the defensive-copy claim.  Python lists and deques are
mutable objects on a heap; `list(self.data_buffer["weather"])` allocates a *fresh*
list object holding a copy of the deque's contents.  A heap maps references
(naturals) to list contents; the collector's live deque is one cell, and every
snapshot allocates a new cell at the next free reference.
-/

/-- A heap of list-valued cells: the contents at each reference, and the next
fresh reference (every allocated cell has a reference below `next`). -/
structure WHeap where
  cells : Nat → List WeatherPoint
  next : Nat

/-- Read the list object behind a reference. -/
def hGet (h : WHeap) (r : Nat) : List WeatherPoint := h.cells r

/-- Mutate the list object behind a reference in place (covers any in-place update
a caller performs on a list, e.g. `append`, `clear`, slice assignment). -/
def hSet (h : WHeap) (r : Nat) (v : List WeatherPoint) : WHeap :=
  { cells := fun r2 => if r2 = r then v else h.cells r2, next := h.next }

/-- `list(buffer)`: allocate a fresh list object holding a copy of the contents of
the cell at `r`; returns the new heap and the fresh reference. -/
def hCopy (h : WHeap) (r : Nat) : WHeap × Nat :=
  ({ cells := fun r2 => if r2 = h.next then h.cells r else h.cells r2,
     next := h.next + 1 }, h.next)

/-- A worker's `appendleft` on the live deque cell, done in place. -/
def hPush (h : WHeap) (r : Nat) (maxlen : Nat) (d : WeatherPoint) : WHeap :=
  hSet h r (appendleftBounded maxlen d (hGet h r))

/-!
Timing model for `stop()`.  `threading.Thread.join(timeout=t)` blocks the caller
until the thread finishes or `t` seconds elapse, i.e. for `min remaining t` where
`remaining` is the time the thread still needs before terminating.  `stop()` joins
every thread with `timeout=0`.
-/

/-- Blocking time of one `t.join(timeout=timeout)` call. -/
def join_wait (remaining timeout : Nat) : Nat := min remaining timeout

/-- Total blocking time of the join loop in `stop()`, which passes `timeout=0` for
every thread; `remainings` lists the time each launched thread still needs to
terminate at the moment `stop()` runs. -/
def stop_total_wait (remainings : List Nat) : Nat :=
  (remainings.map (fun r => join_wait r 0)).sum

/-- The end-to-end scenario's buffer: five successive weather poll cycles into a
history of capacity 3, the fetch collaborator returning the payloads 1,2,3,4,5. -/
def scenarioBuffer : List WeatherPoint :=
  weather_worker_cycle 3 5 "Jakarta" (WeatherFetch.ok 5 "" 50)
    (weather_worker_cycle 3 4 "Jakarta" (WeatherFetch.ok 4 "" 50)
      (weather_worker_cycle 3 3 "Jakarta" (WeatherFetch.ok 3 "" 50)
        (weather_worker_cycle 3 2 "Jakarta" (WeatherFetch.ok 2 "" 50)
          (weather_worker_cycle 3 1 "Jakarta" (WeatherFetch.ok 1 "" 50) []))))

/-- Collector state reached by the end-to-end scenario. -/
def scenarioState : CollectorState :=
  { initCollector with weather_maxlen := 3, weather := scenarioBuffer }

/-- A concrete weather entry, for witnesses. -/
def wq (k : Nat) : WeatherPoint := WeatherPoint.ok k "Jakarta" k "" 50

/-- Heap used in the defensive-copy witness: one live buffer cell `0` holding one
entry, next fresh reference `1`. -/
def witnessHeap : WHeap := { cells := fun _ => [wq 1], next := 1 }

/-- Collector state used in the export-shape witness: one successful weather entry
with temperature 30. -/
def witnessState : CollectorState :=
  { initCollector with weather := [WeatherPoint.ok 1 "Jakarta" 30 "" 70] }

end Level3

namespace Level2

theorem backoffDelays_eq_map :
    ∀ (n d : Nat), backoffDelays d n = (List.range n).map (fun i => 2 ^ i * d) := by
  intro n
  induction n with
  | zero => intro d; simp [backoffDelays]
  | succ m ih =>
    intro d
    rw [List.range_succ_eq_map]
    simp only [backoffDelays, ih (d * 2), List.map_cons, List.map_map, pow_zero, one_mul]
    congr 1
    refine List.map_congr_left ?_
    intro i _
    simp only [Function.comp_apply, pow_succ]
    ring

theorem backoffDelays_sum :
    ∀ (n d : Nat), (backoffDelays d n).sum = (2 ^ n - 1) * d := by
  intro n
  induction n with
  | zero => intro d; simp [backoffDelays]
  | succ m ih =>
    intro d
    have h2 : 0 < 2 ^ m := Nat.pos_pow_of_pos m (by norm_num)
    obtain ⟨j, hj⟩ : ∃ j, 2 ^ m = j + 1 := ⟨2 ^ m - 1, by omega⟩
    simp only [backoffDelays, List.sum_cons, ih (d * 2), pow_succ, hj]
    have hs : (j + 1) * 2 - 1 = 2 * j + 1 := by omega
    rw [Nat.add_sub_cancel, hs]
    ring

theorem backoffDelays_length : ∀ (n d : Nat), (backoffDelays d n).length = n := by
  intro n
  induction n with
  | zero => intro d; simp [backoffDelays]
  | succ m ih => intro d; simp [backoffDelays, ih (d * 2)]

/-- One-step unfolding of the loop when the current collaborator call fails. -/
theorem safeApiGo_step_err (fetch : Nat → Except String α) (remaining attempt delay : Nat)
    (e : String) (he : fetch attempt = Except.error e) :
    safeApiGo fetch (remaining + 1) attempt delay =
      if remaining = 0 then (none, 1, [])
      else ((safeApiGo fetch remaining (attempt + 1) (delay * 2)).1,
            (safeApiGo fetch remaining (attempt + 1) (delay * 2)).2.1 + 1,
            delay :: (safeApiGo fetch remaining (attempt + 1) (delay * 2)).2.2) := by
  simp [safeApiGo, he]

/-- One-step unfolding of the loop when the current collaborator call succeeds. -/
theorem safeApiGo_step_ok (fetch : Nat → Except String α) (remaining attempt delay : Nat)
    (v : α) (hv : fetch attempt = Except.ok v) :
    safeApiGo fetch (remaining + 1) attempt delay = (some v, 1, []) := by
  simp [safeApiGo, hv]

/-- When every collaborator call fails, the loop performs exactly `r` calls, returns
`none`, and sleeps the doubling schedule of length `r - 1`. -/
theorem safeApiGo_all_fail (fetch : Nat → Except String α)
    (hfail : ∀ i, ∃ e, fetch i = Except.error e) :
    ∀ r a d, 1 ≤ r → safeApiGo fetch r a d = (none, r, backoffDelays d (r - 1)) := by
  intro r
  induction r with
  | zero => intro a d h; omega
  | succ n ih =>
    intro a d _
    obtain ⟨e, he⟩ := hfail a
    rw [safeApiGo_step_err fetch n a d e he]
    by_cases hn : n = 0
    · subst hn; simp [backoffDelays]
    · obtain ⟨m, hm⟩ : ∃ m, n = m + 1 := ⟨n - 1, by omega⟩
      subst hm
      have hrec := ih (a + 1) (d * 2) (by omega)
      rw [if_neg hn, hrec]
      simp [backoffDelays]

/-- When the collaborator first succeeds on its `k`-th call counting from 0 (calls
`a`, `a+1`, …, `a+k-1` fail, call `a+k` succeeds with `v`) and the loop has at least
`k+1` iterations left, the loop performs exactly `k+1` calls, returns the successful
value, and sleeps the doubling schedule of length `k`. -/
theorem safeApiGo_succ_at (fetch : Nat → Except String α) (v : α) :
    ∀ k r a d, k + 1 ≤ r →
      (∀ i, i < k → ∃ e, fetch (a + i) = Except.error e) →
      fetch (a + k) = Except.ok v →
      safeApiGo fetch r a d = (some v, k + 1, backoffDelays d k) := by
  intro k
  induction k with
  | zero =>
    intro r a d hr _ hok
    cases r with
    | zero => omega
    | succ n =>
      rw [Nat.add_zero] at hok
      rw [safeApiGo_step_ok fetch n a d v hok]
      simp [backoffDelays]
  | succ m ih =>
    intro r a d hr herr hok
    cases r with
    | zero => omega
    | succ n =>
      obtain ⟨e, he⟩ := herr 0 (by omega)
      rw [Nat.add_zero] at he
      have herr2 : ∀ i, i < m → ∃ e, fetch (a + 1 + i) = Except.error e := by
        intro i hi
        have h := herr (i + 1) (by omega)
        have harith : a + (i + 1) = a + 1 + i := by omega
        rwa [harith] at h
      have hok2 : fetch (a + 1 + m) = Except.ok v := by
        have harith : a + (m + 1) = a + 1 + m := by omega
        rwa [harith] at hok
      have hrec := ih n (a + 1) (d * 2) (by omega) herr2 hok2
      have hn : n ≠ 0 := by omega
      rw [safeApiGo_step_err fetch n a d e he, if_neg hn, hrec]
      simp [backoffDelays]

/-- C1: counterexample to the claim as stated. When every collaborator call fails,
`safe_api_call` does not return a `FetchError` data point carrying the last
failure's classification and message: it returns Python `None`. Two always-failing
collaborators whose failures carry different messages (`"timeout"` versus
`"parse failure"`) produce byte-for-byte identical outputs, whose result component
is `none` — so the result carries no information about the last failure at all. -/
theorem safe_api_call_result_not_fetch_error :
    safe_api_call (fun _ => (Except.error "timeout" : Except String Nat)) 3 1 =
      safe_api_call (fun _ => (Except.error "parse failure" : Except String Nat)) 3 1 ∧
    (safe_api_call (fun _ => (Except.error "timeout" : Except String Nat)) 3 1).1 = none := by
  exact ⟨rfl, rfl⟩

/-- C1 (amended): for every collaborator that fails on every call, `safe_api_call`
performs exactly `max_retries` collaborator calls and returns `none` (Python's
`None`, carrying no error information); for every collaborator whose calls
`0, …, k-1` fail and whose call `k` (the `(k+1)`-th call, with `k + 1 ≤ max_retries`)
succeeds with `v`, exactly `k + 1` collaborator calls occur and the successful
response `some v` is returned. -/
theorem safe_api_call_retry_counts :
    (∀ (fetch : Nat → Except String Nat) (m d : Nat), 1 ≤ m →
      (∀ i, ∃ e, fetch i = Except.error e) →
      (safe_api_call fetch m d).1 = none ∧ (safe_api_call fetch m d).2.1 = m) ∧
    (∀ (fetch : Nat → Except String Nat) (m d k : Nat) (v : Nat), k + 1 ≤ m →
      (∀ i, i < k → ∃ e, fetch i = Except.error e) →
      fetch k = Except.ok v →
      (safe_api_call fetch m d).1 = some v ∧ (safe_api_call fetch m d).2.1 = k + 1) := by
  constructor
  · intro fetch m d hm hfail
    rw [safe_api_call, safeApiGo_all_fail fetch hfail m 0 d hm]
    exact ⟨rfl, rfl⟩
  · intro fetch m d k v hk herr hok
    have herr0 : ∀ i, i < k → ∃ e, fetch (0 + i) = Except.error e := by
      intro i hi; simpa using herr i hi
    have hok0 : fetch (0 + k) = Except.ok v := by simpa using hok
    rw [safe_api_call, safeApiGo_succ_at fetch v k m 0 d hk herr0 hok0]
    exact ⟨rfl, rfl⟩

/-- C1 witness: with `max_retries = 3`, an always-failing collaborator is called
exactly 3 times and yields `none`; a collaborator succeeding on its 2nd call is
called exactly 2 times and yields its response. -/
theorem safe_api_call_retry_counts_witness :
    (safe_api_call alwaysFail 3 1).2.1 = 3 ∧ (safe_api_call alwaysFail 3 1).1 = none ∧
    (safe_api_call failThenOk 3 1).2.1 = 2 ∧ (safe_api_call failThenOk 3 1).1 = some 7 := by
  have h1 := safe_api_call_retry_counts.1 alwaysFail 3 1 (by omega)
    (fun _ => ⟨"boom", rfl⟩)
  have h2 := safe_api_call_retry_counts.2 failThenOk 3 1 1 7 (by omega)
    (fun i hi => by interval_cases i; exact ⟨"transient", rfl⟩) rfl
  exact ⟨h1.2, h1.1, h2.2, h2.1⟩

/-- C5: within one `safe_api_call`, the sleeps performed are exactly the doubling
schedule `d, 2d, 4d, …` — the first sleep (of the initial delay `d`) happens before
the second attempt, and there is always one fewer sleep than collaborator calls, so
no sleep follows the final attempt; under sustained failure the total slept time is
`(2^(m-1) − 1)·d`, which is at most `d·(2^m − 1)`. -/
theorem safe_api_call_backoff_schedule :
    (∀ (fetch : Nat → Except String Nat) (m d : Nat), 1 ≤ m →
      (∀ i, ∃ e, fetch i = Except.error e) →
      (safe_api_call fetch m d).2.2 = (List.range (m - 1)).map (fun i => 2 ^ i * d) ∧
      (safe_api_call fetch m d).2.2.length = (safe_api_call fetch m d).2.1 - 1 ∧
      (safe_api_call fetch m d).2.2.sum = (2 ^ (m - 1) - 1) * d ∧
      (safe_api_call fetch m d).2.2.sum ≤ d * (2 ^ m - 1)) ∧
    (∀ (fetch : Nat → Except String Nat) (m d k : Nat) (v : Nat), k + 1 ≤ m →
      (∀ i, i < k → ∃ e, fetch i = Except.error e) →
      fetch k = Except.ok v →
      (safe_api_call fetch m d).2.2 = (List.range k).map (fun i => 2 ^ i * d) ∧
      (safe_api_call fetch m d).2.2.length = (safe_api_call fetch m d).2.1 - 1) := by
  constructor
  · intro fetch m d hm hfail
    rw [safe_api_call, safeApiGo_all_fail fetch hfail m 0 d hm]
    refine ⟨backoffDelays_eq_map (m - 1) d, by simp [backoffDelays_length],
      backoffDelays_sum (m - 1) d, ?_⟩
    rw [backoffDelays_sum (m - 1) d]
    have h1 : 2 ^ (m - 1) ≤ 2 ^ m := Nat.pow_le_pow_right (by norm_num) (by omega)
    calc (2 ^ (m - 1) - 1) * d ≤ (2 ^ m - 1) * d := Nat.mul_le_mul_right d (by omega)
      _ = d * (2 ^ m - 1) := Nat.mul_comm _ _
  · intro fetch m d k v hk herr hok
    have herr0 : ∀ i, i < k → ∃ e, fetch (0 + i) = Except.error e := by
      intro i hi; simpa using herr i hi
    have hok0 : fetch (0 + k) = Except.ok v := by simpa using hok
    rw [safe_api_call, safeApiGo_succ_at fetch v k m 0 d hk herr0 hok0]
    exact ⟨backoffDelays_eq_map k d, by simp [backoffDelays_length]⟩

/-- C5 witness: with `max_retries = 3` and `backoff = 1`, an always-failing
collaborator induces exactly the sleeps `[1, 2]`, whose total `3` is at most
`1·(2^3 − 1) = 7`. -/
theorem safe_api_call_backoff_schedule_witness :
    (safe_api_call alwaysFail 3 1).2.2 = [1, 2] ∧
    (safe_api_call alwaysFail 3 1).2.2.sum ≤ 1 * (2 ^ 3 - 1) := by
  have h := safe_api_call_backoff_schedule.1 alwaysFail 3 1 (by omega)
    (fun _ => ⟨"boom", rfl⟩)
  refine ⟨?_, h.2.2.2⟩
  rw [h.1]
  decide

/-- C10: with `max_retries = 0`, the loop body of `safe_api_call` never runs
(`range(0)` is empty): zero collaborator calls are performed, no sleep happens
(total slept time 0), and `none` (Python `None`) is returned rather than raising
or attempting at least once. -/
theorem safe_api_call_zero_retries (fetch : Nat → Except String Nat) (d : Nat) :
    safe_api_call fetch 0 d = (none, 0, []) ∧
    (safe_api_call fetch 0 d).2.2.sum = 0 :=
  ⟨rfl, rfl⟩

end Level2

namespace Level3

theorem take_append_take (a b : List α) (C : Nat) :
    (a ++ b.take C).take C = (a ++ b).take C := by
  rw [List.take_append_eq_append_take, List.take_append_eq_append_take, List.take_take]
  congr 1
  exact congrArg b.take (Nat.min_eq_left (Nat.sub_le C a.length))

/-- Closed form of a push sequence: the deque holds the pushed elements newest-first
(after the surviving part of the initial contents), truncated to the capacity. -/
theorem pushAll_eq (maxlen : Nat) :
    ∀ (xs buf : List α), buf.length ≤ maxlen →
      pushAll maxlen buf xs = (xs.reverse ++ buf).take maxlen := by
  intro xs
  induction xs with
  | nil =>
    intro buf h
    simp only [pushAll, List.foldl_nil, List.reverse_nil, List.nil_append]
    exact (List.take_of_length_le h).symm
  | cons x xs ih =>
    intro buf h
    have hlen : (appendleftBounded maxlen x buf).length ≤ maxlen := by
      simp [appendleftBounded]
    have hrec := ih (appendleftBounded maxlen x buf) hlen
    simp only [pushAll, List.foldl_cons] at hrec ⊢
    rw [hrec, appendleftBounded, take_append_take, List.reverse_cons, List.append_assoc,
      List.singleton_append]

/-- C3: for every sequence of pushes into a bounded history of capacity `C`
(starting empty, as the collector's deques do), the history's length is at most `C`
after every push; once more than `C` points have been pushed, the history holds
exactly the `C` most recently pushed points in newest-first order — the pushed
sequence reversed and truncated at `C` — so the oldest points have been evicted,
verified by value equality. -/
theorem bounded_history_invariant (maxlen : Nat) (xs : List WeatherPoint) :
    (∀ n, (pushAll maxlen [] (xs.take n)).length ≤ maxlen) ∧
    (maxlen < xs.length → pushAll maxlen [] xs = xs.reverse.take maxlen) := by
  constructor
  · intro n
    rw [pushAll_eq maxlen (xs.take n) [] (by simp), List.length_take]
    exact Nat.min_le_left _ _
  · intro _
    rw [pushAll_eq maxlen xs [] (by simp)]
    simp

/-- C3 witness: pushing three entries into a capacity-2 history keeps the last two,
newest first, and every intermediate length is at most 2. -/
theorem bounded_history_invariant_witness :
    pushAll 2 ([] : List WeatherPoint) [wq 1, wq 2, wq 3] = [wq 3, wq 2] ∧
    (pushAll 2 ([] : List WeatherPoint) ([wq 1, wq 2, wq 3].take 2)).length ≤ 2 := by
  constructor
  · have h := (bounded_history_invariant 2 [wq 1, wq 2, wq 3]).2 (by decide)
    simpa using h
  · exact (bounded_history_invariant 2 [wq 1, wq 2, wq 3]).1 2

/-- C2: counterexample to the claim as stated. In the end-to-end scenario
(capacity 3, payloads 1..5 over five poll cycles) the snapshot does show the three
newest payloads, but the exported metrics report an update count of 3 — the length
of the retained history — not 5. -/
theorem scenario_update_count_not_five :
    (export_dashboard_data scenarioState).metrics.weather_updates = 3 ∧
    (export_dashboard_data scenarioState).metrics.weather_updates ≠ 5 := by
  exact ⟨rfl, by decide⟩

/-- C2 (amended): in the end-to-end scenario the snapshot taken after the five poll
cycles shows exactly the payloads `[5, 4, 3]` in newest-first order, and the
exported metrics report an update count of 3 for the weather source — the length of
the retained history (the update counter is computed as the snapshot list's length,
so it is capped at the capacity). -/
theorem scenario_snapshot_and_count :
    (get_current_snapshot scenarioState).weather =
      [WeatherPoint.ok 5 "Jakarta" 5 "" 50,
       WeatherPoint.ok 4 "Jakarta" 4 "" 50,
       WeatherPoint.ok 3 "Jakarta" 3 "" 50] ∧
    (export_dashboard_data scenarioState).metrics.weather_updates = 3 :=
  ⟨rfl, rfl⟩

/-- C4: counterexample to the claim as stated. A news poll cycle in which the feed
parses correctly but contains no `channel/item` gets `None` back from
`_fetch_news`, fails the `if data:` test, and appends nothing — zero points, not
exactly one. -/
theorem news_cycle_appends_nothing_on_empty_feed :
    news_worker_cycle 50 7 NewsFetch.noItem [] = [] ∧
    (news_worker_cycle 50 7 NewsFetch.noItem []).length ≠ 1 :=
  ⟨rfl, by decide⟩

/-- C4 (amended): a weather poll cycle always appends exactly one entry — the
success dict or the `{timestamp, error}` dict — at the head of the history, and a
news poll cycle does the same except when the fetch returned `None` because the
feed held no item, in which case it appends nothing; a raised fetch exception never
propagates out of the fetch/poll path: it is always recorded as an error entry. -/
theorem poll_cycle_append_behavior (maxlen now : Nat) (city : String)
    (buf : List WeatherPoint) (nbuf : List NewsPoint) :
    (∀ o : WeatherFetch, weather_worker_cycle maxlen now city o buf =
      appendleftBounded maxlen (fetch_weather now city o) buf) ∧
    (∀ msg, weather_worker_cycle maxlen now city (WeatherFetch.exc msg) buf =
      appendleftBounded maxlen (WeatherPoint.err now msg) buf) ∧
    (news_worker_cycle maxlen now NewsFetch.noItem nbuf = nbuf) ∧
    (∀ o : NewsFetch, o ≠ NewsFetch.noItem →
      ∃ d, news_worker_cycle maxlen now o nbuf = appendleftBounded maxlen d nbuf) ∧
    (∀ msg, news_worker_cycle maxlen now (NewsFetch.exc msg) nbuf =
      appendleftBounded maxlen (NewsPoint.err now msg) nbuf) := by
  refine ⟨fun o => rfl, fun msg => rfl, rfl, ?_, fun msg => rfl⟩
  intro o ho
  cases o with
  | item t l => exact ⟨NewsPoint.ok now t l, rfl⟩
  | noItem => exact absurd rfl ho
  | exc m => exact ⟨NewsPoint.err now m, rfl⟩

/-- C4 witness: a news cycle whose fetch finds an item appends one entry to an
empty history. -/
theorem poll_cycle_append_behavior_witness :
    (news_worker_cycle 50 7 (NewsFetch.item "t" "l") []).length = 1 := by
  obtain ⟨d, hd⟩ := (poll_cycle_append_behavior 50 7 "Jakarta" [] []).2.2.2.1
    (NewsFetch.item "t" "l") (by decide)
  rw [hd]
  simp [appendleftBounded]

/-- C6: counterexample to the claim as stated. Two consecutive
`start_data_collection()` calls launch two worker threads per source (each call
creates and starts fresh threads and extends `self.threads`), not one; and `stop()`
on a never-started collector changes state — it sets the stop event. -/
theorem start_twice_two_threads :
    (start_data_collection (start_data_collection initCollector)).weather_threads = 2 ∧
    (start_data_collection (start_data_collection initCollector)).news_threads = 2 ∧
    stop initCollector ≠ initCollector := by
  refine ⟨rfl, rfl, by decide⟩

/-- C6 (amended): each `start_data_collection()` call launches one fresh worker
thread per source, so two consecutive calls leave two execution contexts per
source; `stop()` on an already-stopped collector is a no-op (no error, no state
change), but `stop()` on a never-started collector still sets the stop event — a
state change. -/
theorem start_stop_behavior (s : CollectorState) :
    (start_data_collection (start_data_collection s)).weather_threads
        = s.weather_threads + 2 ∧
    (start_data_collection (start_data_collection s)).news_threads
        = s.news_threads + 2 ∧
    stop (stop s) = stop s ∧
    (s.stop_event = true → stop s = s) ∧
    (stop initCollector).stop_event = true ∧ initCollector.stop_event = false := by
  refine ⟨rfl, rfl, rfl, ?_, rfl, rfl⟩
  intro h
  cases s
  simp_all [stop]

/-- C6 witness: stopping an already-stopped collector changes nothing. -/
theorem start_stop_behavior_witness :
    stop (stop initCollector) = stop initCollector :=
  (start_stop_behavior (stop initCollector)).2.2.2.1 (by decide)

/-- C7: `get_current_snapshot` builds its result with `list(...)`, allocating fresh
list objects: the snapshot's contents equal the live buffer's at capture time,
in-place mutation of the snapshot object never changes the live buffer, and a
worker push into the live buffer after the snapshot was taken never changes the
already-returned snapshot's contents. -/
theorem snapshot_defensive_copy (h : WHeap) (live : Nat) (hlive : live < h.next) :
    hGet (hCopy h live).1 (hCopy h live).2 = hGet h live ∧
    (∀ v, hGet (hSet (hCopy h live).1 (hCopy h live).2 v) live = hGet h live) ∧
    (∀ maxlen d, hGet (hPush (hCopy h live).1 live maxlen d) (hCopy h live).2
      = hGet h live) := by
  have hne : live ≠ h.next := Nat.ne_of_lt hlive
  refine ⟨?_, ?_, ?_⟩
  · simp [hCopy, hGet]
  · intro v
    simp [hCopy, hGet, hSet, hne]
  · intro maxlen d
    simp [hCopy, hGet, hSet, hPush, hne, Ne.symm hne]

/-- C7 witness: on a one-cell heap, clearing the snapshot object leaves the live
buffer intact, and pushing into the live buffer leaves the snapshot intact. -/
theorem snapshot_defensive_copy_witness :
    hGet (hSet (hCopy witnessHeap 0).1 (hCopy witnessHeap 0).2 []) 0
        = hGet witnessHeap 0 ∧
    hGet (hPush (hCopy witnessHeap 0).1 0 100 (wq 2)) (hCopy witnessHeap 0).2
        = hGet witnessHeap 0 := by
  have h := snapshot_defensive_copy witnessHeap 0 (by decide)
  exact ⟨h.2.1 [], h.2.2 100 (wq 2)⟩

/-- C8: counterexample to the claim as stated. The top-level keys of the exported
document are `"data"` and `"metrics"`; the source names are not top-level keys —
they sit one level down, inside the `"data"` object. -/
theorem export_top_level_keys_not_sources :
    topKeys (dashboardJson (export_dashboard_data initCollector)) = ["data", "metrics"] ∧
    ¬ "weather" ∈ topKeys (dashboardJson (export_dashboard_data initCollector)) :=
  ⟨rfl, by decide⟩

/-- C8 (amended): the exported document is a structured document with top-level
keys `"data"` and `"metrics"`; the source names are the keys of the `"data"`
object, each holding that source's ordered list of `{timestamp, payload fields}` or
`{timestamp, error}` entries; the metrics object carries an update count per source
(the length of that source's retained history) and, whenever any retained weather
entry carries a temperature, the mean of those temperatures. -/
theorem export_document_shape (s : CollectorState) :
    topKeys (dashboardJson (export_dashboard_data s)) = ["data", "metrics"] ∧
    topKeys (snapshotJson (export_dashboard_data s).data) = ["weather", "news"] ∧
    (export_dashboard_data s).data = get_current_snapshot s ∧
    (export_dashboard_data s).metrics.weather_updates
        = (get_current_snapshot s).weather.length ∧
    (export_dashboard_data s).metrics.news_updates
        = (get_current_snapshot s).news.length ∧
    (s.weather.filterMap temperatureOf ≠ [] →
      (export_dashboard_data s).metrics.avg_temperature_c
        = some ((s.weather.filterMap temperatureOf).sum
            / ((s.weather.filterMap temperatureOf).length : Rat))) := by
  refine ⟨rfl, rfl, rfl, rfl, rfl, ?_⟩
  intro h
  simp [export_dashboard_data, get_current_snapshot, h]

/-- C8 witness: a state with one retained weather entry of temperature 30 exports
an average temperature of 30. -/
theorem export_document_shape_witness :
    (export_dashboard_data witnessState).metrics.avg_temperature_c = some 30 := by
  have h := (export_document_shape witnessState).2.2.2.2.2 (by decide)
  rw [h]
  simp [witnessState, initCollector, temperatureOf, List.filterMap_cons]

/-- C9: the join loop of `stop()` passes `timeout=0` for every thread, so `stop()`
blocks for zero time no matter how long its workers still need before reaching
Stopped: with a worker 5 seconds away from terminating, the total join wait is 0,
`stop()` returns with that worker still running, and nothing is reported — despite
the method's own comment, "wait for them to finish". -/
theorem stop_does_not_wait :
    stop_total_wait [5] = 0 ∧ stop_total_wait [5] < 5 ∧
    (∀ rs : List Nat, stop_total_wait rs = 0) := by
  refine ⟨rfl, by decide, ?_⟩
  intro rs
  simp [stop_total_wait, join_wait]

end Level3
